import Mathlib

/-!
Shallow embedding of the Resume Evaluation Engine from `api.py`
(resume-analyzer-app-backend), together with proofs of the spec claims.

Modelling conventions:
* Python module-level mutable lists (the five course catalogs and two video
  pools from `Courses.py`) are threaded as an explicit `Catalogs` state.
* Randomness is passed explicitly: `random.shuffle` is embedded as a
  Fisher-Yates pass (`fisherYates`) driven by a list of swap targets, which is
  exactly CPython's algorithm `for i in reversed(range(1, len(x))): j =
  randbelow(i+1); swap x[i] x[j]`; `random.choice` is embedded as `pickVideo`
  driven by an index.
* The two fallible collaborators (`ResumeParser(...).get_extracted_data()` and
  `pdf_reader`) are embedded as `Except`-valued inputs; an exception that the
  code does not catch is an `AnalyzeOutcome.uncaught` result.
* Text is `List Char`; Python's `in` substring test is `subOccurs`.
-/

/-- Structured record returned by `ResumeParser(...).get_extracted_data()`
(`resume_data` in `analyze_resume`): each field is read with `.get`, so each
may be absent. -/
structure ResumeData where
  name : Option String
  email : Option String
  mobile_number : Option String
  skills : Option (List String)
  no_of_pages : Option Int
deriving DecidableEq, Repr

/-- One recommended course, `{"name": c_name, "link": c_link}` in the code. -/
structure CourseEntry where
  name : String
  link : String
deriving DecidableEq, Repr

/-- The module-level mutable lists imported from `Courses.py`:
five course catalogs and two video pools. -/
structure Catalogs where
  ds_course : List (String × String)
  web_course : List (String × String)
  android_course : List (String × String)
  ios_course : List (String × String)
  uiux_course : List (String × String)
  resume_videos : List (String × String)
  interview_videos : List (String × String)
deriving DecidableEq, Repr

/-- The dictionary assembled at the end of `analyze_resume` (the
`analysis_result` literal, lines 159-174 of `api.py`). -/
structure AnalysisResult where
  name : Option String
  email : Option String
  mobile_number : Option String
  skills : Option (List String)
  no_of_pages : Int
  candidate_level : String
  predicted_field : String
  recommended_skills : List String
  recommended_courses : List CourseEntry
  resume_score : Nat
  score_breakdown : List (String × Bool)
  resume_video_rec : Option (String × String)
  interview_video_rec : Option (String × String)
  timestamp : String
deriving DecidableEq, Repr

/-- Possible outcomes of a call to `analyze_resume`: an `{"error": msg}`
dictionary returned normally, an exception escaping the function, or the
success dictionary. -/
inductive AnalyzeOutcome where
  | errorDict (msg : String)
  | uncaught (msg : String)
  | success (r : AnalysisResult)
deriving DecidableEq, Repr

/-- Swap the elements at positions `i` and `j`; identity when either index is
out of range (in `random.shuffle` both are always in range). -/
def swapIdx (l : List α) (i j : Nat) : List α :=
  match l[i]?, l[j]? with
  | some a, some b => (l.set i b).set j a
  | _, _ => l

/-- The loop of CPython's `random.shuffle`: `i` runs from `len(x)-1` down
to `1`, consuming one random swap target `j ≤ i` per step. -/
def fyGo (l : List α) (i : Nat) (js : List Nat) : List α :=
  match i, js with
  | 0, _ => l
  | _ + 1, [] => l
  | i + 1, j :: rest => fyGo (swapIdx l (i + 1) j) i rest

/-- `random.shuffle(l)` with the stream of random draws made explicit. -/
def fisherYates (l : List α) (js : List Nat) : List α :=
  fyGo l (l.length - 1) js

/-- `course_recommender(course_list)` from `api.py` lines 60-69: shuffles the
list in place, then returns `{"name","link"}` records for the first 5 entries.
The second component is the post-call state of the (mutated) module list. -/
def course_recommender (course_list : List (String × String)) (js : List Nat) :
    List CourseEntry × List (String × String) :=
  let shuffled := fisherYates course_list js
  ((shuffled.take 5).map (fun c => { name := c.1, link := c.2 }), shuffled)

/-- `random.choice(pool) if pool else None`, with the random index explicit
(`random.choice` picks a valid index of a non-empty sequence). -/
def pickVideo (pool : List (String × String)) (i : Nat) :
    Option (String × String) :=
  if h : 0 < pool.length then some (pool.get ⟨i % pool.length, Nat.mod_lt i h⟩)
  else none

/-- `ds_keyword` from `api.py` line 103. -/
def ds_keyword : List String :=
  ["tensorflow", "keras", "pytorch", "machine learning", "deep learning",
   "flask", "streamlit", "python"]

/-- `web_keyword` from `api.py` line 104. -/
def web_keyword : List String :=
  ["react", "django", "node js", "react js", "php", "laravel", "magento",
   "wordpress", "javascript", "angular js", "c#", "flask"]

/-- `android_keyword` from `api.py` line 105. -/
def android_keyword : List String :=
  ["android", "android development", "flutter", "kotlin", "xml", "kivy",
   "java"]

/-- `ios_keyword` from `api.py` line 106. -/
def ios_keyword : List String :=
  ["ios", "ios development", "swift", "cocoa", "cocoa touch", "xcode"]

/-- `uiux_keyword` from `api.py` line 107. -/
def uiux_keyword : List String :=
  ["ux", "adobe xd", "figma", "zeplin", "balsamiq", "ui", "prototyping",
   "wireframe", "photoshop", "illustrator"]

/-- Python's `str.lower()`, character-wise (`skill.lower()` on line 100). -/
def strLower (s : String) : String := ⟨s.data.map Char.toLower⟩

/-- `any(i in kws for i in skills)`: the test guarding each field branch. -/
def matchesField (skills : List String) (kws : List String) : Bool :=
  skills.any (fun i => kws.contains i)

/-- The recommended-skills literal of the Data Science branch (line 116). -/
def ds_recommended_skills : List String :=
  ["Data Visualization", "Predictive Analysis", "Statistical Modeling",
   "Data Mining", "Clustering & Classification", "Data Analytics",
   "Quantitative Analysis", "Web Scraping", "ML Algorithms", "Keras",
   "Pytorch", "Probability", "Scikit-learn", "Tensorflow", "Flask",
   "Streamlit"]

/-- The recommended-skills literal of the Web Development branch (line 120). -/
def web_recommended_skills : List String :=
  ["React", "Django", "Node JS", "React JS", "php", "laravel", "Magento",
   "wordpress", "Javascript", "Angular JS", "c#", "Flask", "SDK"]

/-- The recommended-skills literal of the Android branch (line 124). -/
def android_recommended_skills : List String :=
  ["Android", "Android development", "Flutter", "Kotlin", "XML", "Java",
   "Kivy", "GIT", "SDK", "SQLite"]

/-- The recommended-skills literal of the IOS branch (line 128). -/
def ios_recommended_skills : List String :=
  ["IOS", "IOS Development", "Swift", "Cocoa", "Cocoa Touch", "Xcode",
   "Objective-C", "SQLite", "Plist", "StoreKit", "UI-Kit", "AV Foundation",
   "Auto-Layout"]

/-- The recommended-skills literal of the UI-UX branch (line 132). -/
def uiux_recommended_skills : List String :=
  ["UI", "User Experience", "Adobe XD", "Figma", "Zeplin", "Balsamiq",
   "Prototyping", "Wireframes", "Storyframes", "Adobe Photoshop", "Editing",
   "Illustrator", "After Effects", "Premier Pro", "Indesign"]

/-- The `if`/`elif` chain of `api.py` lines 114-133, extracted as its own
function: returns `(reco_field, recommended_skills, recommended_courses)` and
the post-state of the catalogs (the matched branch shuffles its catalog list
in place via `course_recommender`). -/
def fieldBranch (skills : List String) (cats : Catalogs) (js : List Nat) :
    String × List String × List CourseEntry × Catalogs :=
  if matchesField skills ds_keyword then
    let res := course_recommender cats.ds_course js
    ("Data Science", ds_recommended_skills, res.1,
      { cats with ds_course := res.2 })
  else if matchesField skills web_keyword then
    let res := course_recommender cats.web_course js
    ("Web Development", web_recommended_skills, res.1,
      { cats with web_course := res.2 })
  else if matchesField skills android_keyword then
    let res := course_recommender cats.android_course js
    ("Android Development", android_recommended_skills, res.1,
      { cats with android_course := res.2 })
  else if matchesField skills ios_keyword then
    let res := course_recommender cats.ios_course js
    ("IOS Development", ios_recommended_skills, res.1,
      { cats with ios_course := res.2 })
  else if matchesField skills uiux_keyword then
    let res := course_recommender cats.uiux_course js
    ("UI-UX Development", uiux_recommended_skills, res.1,
      { cats with uiux_course := res.2 })
  else
    ("Other", [], [], cats)

/-- The field-selection result alone (the value held by `reco_field` after
lines 109-133): the first matching field in the fixed precedence order, else
`Other`. -/
def classifyField (skills : List String) : String :=
  if matchesField skills ds_keyword then "Data Science"
  else if matchesField skills web_keyword then "Web Development"
  else if matchesField skills android_keyword then "Android Development"
  else if matchesField skills ios_keyword then "IOS Development"
  else if matchesField skills uiux_keyword then "UI-UX Development"
  else "Other"

/-- `S` and `kws` share an element: non-empty intersection of the skill set
with a field keyword set. -/
def fieldIntersects (skills : List String) (kws : List String) : Prop :=
  ∃ i, i ∈ skills ∧ i ∈ kws

/-- `page_count = resume_data.get('no_of_pages', 0)` (line 91). -/
def pageCountOf (rd : ResumeData) : Int :=
  rd.no_of_pages.getD 0

/-- The Candidate Leveler, `api.py` lines 90-97: `cand_level` starts as the
empty string and the `if`/`elif` chain may overwrite it. -/
def candLevel (page_count : Int) : String :=
  if page_count = 1 then "Fresher"
  else if page_count = 2 then "Intermediate"
  else if page_count ≥ 3 then "Experienced"
  else ""

/-- `needle` occurs as a contiguous substring of `haystack`
(Python's `needle in haystack` on strings). -/
def Occurs (needle haystack : List Char) : Prop :=
  ∃ p s, haystack = p ++ needle ++ s

/-- Executable substring test equivalent to `Occurs` (proved below). -/
def subOccurs (needle haystack : List Char) : Bool :=
  (List.range (haystack.length + 1)).any
    (fun i => (haystack.drop i).take needle.length == needle)

/-- The `sections_to_check` dictionary of `api.py` lines 139-145, in
insertion order, with each detection keyword as a character list. -/
def sections_to_check : List (String × List (List Char)) :=
  [("objective", ["objective".toList, "summary".toList]),
   ("declaration", ["declaration".toList]),
   ("hobbies", ["hobbies".toList, "interests".toList]),
   ("achievements", ["achievements".toList, "awards".toList,
                     "certifications".toList]),
   ("projects", ["projects".toList, "experience".toList,
                 "work experience".toList])]

/-- `any(keyword in resume_text_lower for keyword in keywords)` (line 148). -/
def sectionPresent (text : List Char) (kws : List (List Char)) : Bool :=
  kws.any (fun k => subOccurs k text)

/-- The scoring loop of `api.py` lines 136-152: accumulates `resume_score`
(+20 per present section) and the `score_breakdown` entries in order. -/
def scanSections (text : List Char) : Nat × List (String × Bool) :=
  sections_to_check.foldl
    (fun acc sk =>
      if sectionPresent text sk.2 then (acc.1 + 20, acc.2 ++ [(sk.1, true)])
      else (acc.1, acc.2 ++ [(sk.1, false)]))
    (0, [])

/-- `analyze_resume` from `api.py` lines 72-176.  `parse` is the outcome of
`ResumeParser(resume_path).get_extracted_data()` (`Except.error` = the call
raised, `.ok none` = it returned nothing truthy, `.ok (some rd)` = data);
`pdf` is the outcome of `pdf_reader(resume_path)` (`Except.error` = it
raised — the code does not guard this call, so the exception escapes as
`AnalyzeOutcome.uncaught`).  `js`, `ri`, `ii` are the random draws consumed
by `random.shuffle` and the two `random.choice` calls; `now` is the
timestamp.  Returns the outcome and the post-state of the module lists. -/
def analyze_resume (parse : Except String (Option ResumeData))
    (pdf : Except String (List Char)) (cats : Catalogs) (js : List Nat)
    (ri ii : Nat) (now : String) : AnalyzeOutcome × Catalogs :=
  match parse with
  | .error e =>
      (.errorDict ("Error parsing resume with pyresparser: " ++ e), cats)
  | .ok none =>
      (.errorDict
        "Could not extract any data from the resume. Is it a valid resume format?",
       cats)
  | .ok (some rd) =>
      match pdf with
      | .error e => (.uncaught e, cats)
      | .ok resume_text =>
          let resume_text_lower := resume_text.map Char.toLower
          let page_count := pageCountOf rd
          let cand_level := candLevel page_count
          let skills_lower := (rd.skills.getD []).map strLower
          let fb := fieldBranch skills_lower cats js
          let sc := scanSections resume_text_lower
          (.success
            { name := rd.name
              email := rd.email
              mobile_number := rd.mobile_number
              skills := rd.skills
              no_of_pages := page_count
              candidate_level := cand_level
              predicted_field := fb.1
              recommended_skills := fb.2.1
              recommended_courses := fb.2.2.1
              resume_score := sc.1
              score_breakdown := sc.2
              resume_video_rec := pickVideo cats.resume_videos ri
              interview_video_rec := pickVideo cats.interview_videos ii
              timestamp := now },
           fb.2.2.2)

/-- The response the Flask route builds from an `analyze_resume` outcome
(`api.py` lines 213-230): error dict → HTTP 400 with the message; uncaught
exception → HTTP 500 with a generic message; success → HTTP 200. -/
def analyze_route_response (o : AnalyzeOutcome) : (String ⊕ AnalysisResult) × Nat :=
  match o with
  | .errorDict m => (.inl m, 400)
  | .uncaught _ =>
      (.inl "An unexpected server error occurred during analysis.", 500)
  | .success r => (.inr r, 200)

/-- `true` exactly on `errorDict` outcomes. -/
def isErrorDict : AnalyzeOutcome → Bool
  | .errorDict _ => true
  | _ => false

/-- A minimal extracted record used as a concrete evaluation input: no
contact fields, an empty skill list, one page. -/
def wRd : ResumeData := ⟨none, none, none, some [], some 1⟩

/-- A one-skill record whose lower-cased skill list is `["python"]`. -/
def wRdP : ResumeData := ⟨none, none, none, some ["Python"], some 1⟩

/-- Catalog state with every module list empty. -/
def wCats : Catalogs := ⟨[], [], [], [], [], [], []⟩

/-- Catalog state with a two-entry Data Science catalog. -/
def wCatsD : Catalogs := ⟨[("c1", "l1"), ("c2", "l2")], [], [], [], [], [], []⟩

/-- Catalog state with one resume-tips video and one interview-tips video. -/
def wCatsV : Catalogs := ⟨[], [], [], [], [], [("v", "lv")], [("w", "lw")]⟩

/-- The analysis dictionary produced on `wRd`/`wCats` with empty text. -/
def wResult : AnalysisResult :=
  { name := none, email := none, mobile_number := none, skills := some [],
    no_of_pages := 1, candidate_level := "Fresher", predicted_field := "Other",
    recommended_skills := [], recommended_courses := [], resume_score := 0,
    score_breakdown := [("objective", false), ("declaration", false),
      ("hobbies", false), ("achievements", false), ("projects", false)],
    resume_video_rec := none, interview_video_rec := none, timestamp := "t" }

/-- The analysis dictionary produced on `wRdP`/`wCatsD` with empty text and
an empty shuffle-draw stream. -/
def wResultD : AnalysisResult :=
  { name := none, email := none, mobile_number := none,
    skills := some ["Python"], no_of_pages := 1, candidate_level := "Fresher",
    predicted_field := "Data Science",
    recommended_skills := ds_recommended_skills,
    recommended_courses := [⟨"c1", "l1"⟩, ⟨"c2", "l2"⟩], resume_score := 0,
    score_breakdown := [("objective", false), ("declaration", false),
      ("hobbies", false), ("achievements", false), ("projects", false)],
    resume_video_rec := none, interview_video_rec := none, timestamp := "t" }

/-- The analysis dictionary produced on `wRd`/`wCatsV` with empty text. -/
def wResultV : AnalysisResult :=
  { name := none, email := none, mobile_number := none, skills := some [],
    no_of_pages := 1, candidate_level := "Fresher", predicted_field := "Other",
    recommended_skills := [], recommended_courses := [], resume_score := 0,
    score_breakdown := [("objective", false), ("declaration", false),
      ("hobbies", false), ("achievements", false), ("projects", false)],
    resume_video_rec := some ("v", "lv"),
    interview_video_rec := some ("w", "lw"), timestamp := "t" }

/-! ### Helper lemmas -/

theorem cons_set_perm (t : List α) (k : Nat) (a : α) (h : k < t.length) :
    List.Perm (t.get ⟨k, h⟩ :: t.set k a) (a :: t) := by
  induction t generalizing k with
  | nil => simp at h
  | cons c t2 ih =>
    cases k with
    | zero => simpa using List.Perm.swap a c t2
    | succ m =>
      have hm : m < t2.length := by simpa using h
      have step1 : List.Perm ((c :: t2).get ⟨m + 1, h⟩ :: (c :: t2).set (m + 1) a)
          (c :: (t2.get ⟨m, hm⟩ :: t2.set m a)) := by
        simpa using List.Perm.swap c (t2.get ⟨m, hm⟩) (t2.set m a)
      have step2 : List.Perm (c :: (t2.get ⟨m, hm⟩ :: t2.set m a)) (c :: (a :: t2)) :=
        (ih m hm).cons c
      have step3 : List.Perm (c :: (a :: t2)) (a :: c :: t2) := List.Perm.swap a c t2
      exact (step1.trans step2).trans step3

theorem set_set_perm (l : List α) (i j : Nat) (hi : i < l.length)
    (hj : j < l.length) :
    List.Perm ((l.set i (l.get ⟨j, hj⟩)).set j (l.get ⟨i, hi⟩)) l := by
  induction l generalizing i j with
  | nil => simp at hi
  | cons c t ih =>
    cases i with
    | zero =>
      cases j with
      | zero => simp
      | succ m =>
        have hm : m < t.length := by simpa using hj
        simpa using cons_set_perm t m c hm
    | succ n =>
      cases j with
      | zero =>
        have hn : n < t.length := by simpa using hi
        simpa using cons_set_perm t n c hn
      | succ m =>
        have hn : n < t.length := by simpa using hi
        have hm : m < t.length := by simpa using hj
        simpa using (ih n m hn hm).cons c

theorem swapIdx_perm (l : List α) (i j : Nat) : List.Perm (swapIdx l i j) l := by
  rcases hgi : l[i]? with _ | a
  · simp only [swapIdx, hgi]
    exact List.Perm.refl l
  · rcases hgj : l[j]? with _ | b
    · simp only [swapIdx, hgi, hgj]
      exact List.Perm.refl l
    · obtain ⟨hi, ha⟩ := List.getElem?_eq_some.mp hgi
      obtain ⟨hj, hb⟩ := List.getElem?_eq_some.mp hgj
      have := set_set_perm l i j hi hj
      simp only [swapIdx, hgi, hgj]
      simpa [← ha, ← hb] using this

theorem fyGo_perm (js : List Nat) :
    ∀ (l : List α) (i : Nat), List.Perm (fyGo l i js) l := by
  induction js with
  | nil => intro l i; cases i <;> simp [fyGo]
  | cons j rest ih =>
    intro l i
    cases i with
    | zero => simp [fyGo]
    | succ i2 =>
      simpa [fyGo] using (ih (swapIdx l (i2 + 1) j) i2).trans
        (swapIdx_perm l (i2 + 1) j)

theorem fisherYates_perm (l : List α) (js : List Nat) :
    List.Perm (fisherYates l js) l :=
  fyGo_perm js l (l.length - 1)

theorem subOccurs_iff (needle haystack : List Char) :
    subOccurs needle haystack = true ↔ Occurs needle haystack := by
  constructor
  · intro h
    simp only [subOccurs, List.any_eq_true, List.mem_range] at h
    obtain ⟨i, hi, hb⟩ := h
    have heq : (haystack.drop i).take needle.length = needle := by simpa using hb
    refine ⟨haystack.take i, (haystack.drop i).drop needle.length, ?_⟩
    have h3 : haystack.drop i =
        needle ++ (haystack.drop i).drop needle.length := by
      conv_lhs => rw [← List.take_append_drop needle.length (haystack.drop i)]
      rw [heq]
    calc haystack = haystack.take i ++ haystack.drop i :=
          (List.take_append_drop i haystack).symm
      _ = haystack.take i ++
            (needle ++ (haystack.drop i).drop needle.length) :=
          congrArg (haystack.take i ++ ·) h3
      _ = haystack.take i ++ needle ++ (haystack.drop i).drop needle.length :=
          (List.append_assoc _ _ _).symm
  · rintro ⟨p, s, rfl⟩
    simp only [subOccurs, List.any_eq_true, List.mem_range]
    refine ⟨p.length, ?_, ?_⟩
    · simp only [List.length_append]
      omega
    · rw [List.append_assoc, List.drop_left, List.take_left]
      simp

theorem occurs_trans {a b c : List Char} (h1 : Occurs a b) (h2 : Occurs b c) :
    Occurs a c := by
  obtain ⟨p2, s2, rfl⟩ := h2
  obtain ⟨p1, s1, rfl⟩ := h1
  exact ⟨p2 ++ p1, s1 ++ s2, by simp [List.append_assoc]⟩

theorem matchesField_iff (skills kws : List String) :
    matchesField skills kws = true ↔ fieldIntersects skills kws := by
  simp [matchesField, fieldIntersects, List.any_eq_true, List.elem_iff]

theorem scan_foldl (text : List Char) (secs : List (String × List (List Char)))
    (s : Nat) (acc : List (String × Bool)) :
    secs.foldl
      (fun acc sk =>
        if sectionPresent text sk.2 then (acc.1 + 20, acc.2 ++ [(sk.1, true)])
        else (acc.1, acc.2 ++ [(sk.1, false)]))
      (s, acc) =
    (s + 20 * secs.countP (fun sk => sectionPresent text sk.2),
     acc ++ secs.map (fun sk => (sk.1, sectionPresent text sk.2))) := by
  induction secs generalizing s acc with
  | nil => simp
  | cons sk rest ih =>
    by_cases h : sectionPresent text sk.2 = true
    · simp only [List.foldl_cons, h, if_true, ih, List.countP_cons,
        List.map_cons, Prod.ext_iff]
      refine ⟨by ring, by simp⟩
    · simp [List.foldl_cons, h, ih, List.countP_cons, Prod.ext_iff,
        Nat.mul_add]

theorem scanSections_eq (text : List Char) :
    scanSections text =
      (20 * sections_to_check.countP (fun sk => sectionPresent text sk.2),
       sections_to_check.map (fun sk => (sk.1, sectionPresent text sk.2))) := by
  simpa [scanSections] using scan_foldl text sections_to_check 0 []

theorem course_recommender_perm (cl : List (String × String)) (js : List Nat) :
    List.Perm ((course_recommender cl js).2) cl :=
  fisherYates_perm cl js

theorem course_recommender_length (cl : List (String × String)) (js : List Nat) :
    ((course_recommender cl js).1).length = min 5 cl.length := by
  simp [course_recommender, List.length_map, List.length_take,
    (fisherYates_perm cl js).length_eq]

theorem course_recommender_mem (cl : List (String × String)) (js : List Nat)
    (e : CourseEntry) (he : e ∈ (course_recommender cl js).1) :
    (e.name, e.link) ∈ cl := by
  simp only [course_recommender, List.mem_map] at he
  obtain ⟨c, hc, rfl⟩ := he
  have hc2 : c ∈ fisherYates cl js := List.mem_of_mem_take hc
  exact (fisherYates_perm cl js).mem_iff.mp hc2

theorem courseEntry_mk_injective :
    Function.Injective (fun c : String × String => CourseEntry.mk c.1 c.2) := by
  intro p q h
  cases p
  cases q
  simpa [CourseEntry.mk.injEq, Prod.ext_iff] using h

theorem course_recommender_nodup (cl : List (String × String)) (js : List Nat)
    (hn : cl.Nodup) : ((course_recommender cl js).1).Nodup := by
  have h1 : (fisherYates cl js).Nodup := ((fisherYates_perm cl js).nodup_iff).mpr hn
  have h2 : ((fisherYates cl js).take 5).Nodup :=
    h1.sublist (List.take_sublist 5 (fisherYates cl js))
  exact h2.map courseEntry_mk_injective

theorem pickVideo_empty (i : Nat) : pickVideo [] i = none := by
  simp [pickVideo]

theorem pickVideo_mem (pool : List (String × String)) (i : Nat)
    (h : pool ≠ []) : ∃ v, v ∈ pool ∧ pickVideo pool i = some v := by
  have hl : 0 < pool.length := List.length_pos.mpr h
  refine ⟨pool.get ⟨i % pool.length, Nat.mod_lt i hl⟩, ?_, ?_⟩
  · exact pool.get_mem _ _
  · simp [pickVideo, hl]

theorem fieldBranch_fst (skills : List String) (cats : Catalogs)
    (js : List Nat) : (fieldBranch skills cats js).1 = classifyField skills := by
  simp only [fieldBranch, classifyField]
  split_ifs <;> rfl

theorem analyze_success_inv {parse : Except String (Option ResumeData)}
    {pdf : Except String (List Char)} {cats : Catalogs} {js : List Nat}
    {ri ii : Nat} {now : String} {r : AnalysisResult} {c2 : Catalogs}
    (h : analyze_resume parse pdf cats js ri ii now = (.success r, c2)) :
    ∃ rd text, parse = .ok (some rd) ∧ pdf = .ok text ∧
      r = { name := rd.name
            email := rd.email
            mobile_number := rd.mobile_number
            skills := rd.skills
            no_of_pages := pageCountOf rd
            candidate_level := candLevel (pageCountOf rd)
            predicted_field :=
              (fieldBranch ((rd.skills.getD []).map strLower) cats js).1
            recommended_skills :=
              (fieldBranch ((rd.skills.getD []).map strLower) cats js).2.1
            recommended_courses :=
              (fieldBranch ((rd.skills.getD []).map strLower) cats js).2.2.1
            resume_score := (scanSections (text.map Char.toLower)).1
            score_breakdown := (scanSections (text.map Char.toLower)).2
            resume_video_rec := pickVideo cats.resume_videos ri
            interview_video_rec := pickVideo cats.interview_videos ii
            timestamp := now } ∧
      c2 = (fieldBranch ((rd.skills.getD []).map strLower) cats js).2.2.2 := by
  match parse with
  | .error e => simp [analyze_resume] at h
  | .ok none => simp [analyze_resume] at h
  | .ok (some rd) =>
    match pdf with
    | .error e => simp [analyze_resume] at h
    | .ok text =>
      simp only [analyze_resume] at h
      rw [Prod.mk.injEq] at h
      obtain ⟨hs, hc⟩ := h
      exact ⟨rd, text, rfl, rfl, (AnalyzeOutcome.success.inj hs).symm, hc.symm⟩

/-! ### Claim theorems -/

/-- C1: the field-selection logic inside `analyze_resume`, applied to the
lower-cased skill set `S`, returns `Other` iff `S` misses every field keyword
set; otherwise it returns the first field in the fixed precedence order
Data Science, Web Development, Android Development, IOS Development,
UI-UX Development whose keyword set intersects `S` (and this selection is
exactly the first component of the branch actually run by
`analyze_resume`). -/
theorem claim_c1 (S : List String) :
    (classifyField S = "Other" ↔
      ¬ fieldIntersects S ds_keyword ∧ ¬ fieldIntersects S web_keyword ∧
      ¬ fieldIntersects S android_keyword ∧ ¬ fieldIntersects S ios_keyword ∧
      ¬ fieldIntersects S uiux_keyword) ∧
    (fieldIntersects S ds_keyword → classifyField S = "Data Science") ∧
    (¬ fieldIntersects S ds_keyword → fieldIntersects S web_keyword →
      classifyField S = "Web Development") ∧
    (¬ fieldIntersects S ds_keyword → ¬ fieldIntersects S web_keyword →
      fieldIntersects S android_keyword →
      classifyField S = "Android Development") ∧
    (¬ fieldIntersects S ds_keyword → ¬ fieldIntersects S web_keyword →
      ¬ fieldIntersects S android_keyword → fieldIntersects S ios_keyword →
      classifyField S = "IOS Development") ∧
    (¬ fieldIntersects S ds_keyword → ¬ fieldIntersects S web_keyword →
      ¬ fieldIntersects S android_keyword → ¬ fieldIntersects S ios_keyword →
      fieldIntersects S uiux_keyword →
      classifyField S = "UI-UX Development") ∧
    (∀ cats js, (fieldBranch S cats js).1 = classifyField S) := by
  have hds := matchesField_iff S ds_keyword
  have hweb := matchesField_iff S web_keyword
  have hand := matchesField_iff S android_keyword
  have hios := matchesField_iff S ios_keyword
  have huix := matchesField_iff S uiux_keyword
  refine ⟨?_, ?_, ?_, ?_, ?_, ?_, fun cats js => fieldBranch_fst S cats js⟩ <;>
    · simp only [classifyField]
      split_ifs with h1 h2 h3 h4 h5 <;>
        simp_all [hds, hweb, hand, hios, huix]

/-- Witness for C1 at the concrete skill sets `{"python"}` and `{"excel"}`. -/
theorem claim_c1_witness :
    classifyField ["python"] = "Data Science" ∧ classifyField ["excel"] = "Other" :=
  ⟨(claim_c1 ["python"]).2.1 (by unfold fieldIntersects; decide),
   (claim_c1 ["excel"]).1.mpr
     ⟨by unfold fieldIntersects; decide, by unfold fieldIntersects; decide,
      by unfold fieldIntersects; decide, by unfold fieldIntersects; decide,
      by unfold fieldIntersects; decide⟩⟩

/-- C2: the Section Scanner marks a section present iff one of its detection
keywords occurs as a substring of the (lower-cased) text, each present
section contributes exactly +20, the score equals 20 times the number of
true entries of the breakdown, and the score lies in {0,20,40,60,80,100}. -/
theorem claim_c2 (text : List Char) :
    ((scanSections text).2 =
      sections_to_check.map (fun sk => (sk.1, sectionPresent text sk.2))) ∧
    (∀ kws, sectionPresent text kws = true ↔ ∃ k ∈ kws, Occurs k text) ∧
    ((scanSections text).1 =
      20 * ((scanSections text).2).countP (fun e => e.2)) ∧
    (scanSections text).1 ∈ [0, 20, 40, 60, 80, 100] := by
  refine ⟨?_, ?_, ?_, ?_⟩
  · simp [scanSections_eq]
  · intro kws
    simp [sectionPresent, List.any_eq_true, subOccurs_iff]
  · simp [scanSections_eq, List.countP_map, Function.comp_def]
  · have h5 : sections_to_check.countP (fun sk => sectionPresent text sk.2) ≤
        sections_to_check.length := List.countP_le_length _
    have hle : sections_to_check.countP (fun sk => sectionPresent text sk.2) ≤ 5 := by
      simpa [sections_to_check] using h5
    simp only [scanSections_eq]
    set c := sections_to_check.countP (fun sk => sectionPresent text sk.2) with hc
    interval_cases c <;> decide

/-- Witness for C2 at the concrete text "my projects here". -/
theorem claim_c2_witness :
    sectionPresent "my projects here".toList
        ["projects".toList, "experience".toList, "work experience".toList] = true ∧
    (scanSections "my projects here".toList).1 =
      20 * ((scanSections "my projects here".toList).2).countP (fun e => e.2) :=
  ⟨((claim_c2 "my projects here".toList).2.1 _).mpr
     ⟨"projects".toList, by decide, "my ".toList, " here".toList, by decide⟩,
   (claim_c2 "my projects here".toList).2.2.1⟩

/-- C5: the Candidate Leveler is total in the page count: 1 maps to Fresher,
2 to Intermediate, ≥3 to Experienced, and 0, negative or unset page counts
map to the unknown tier (the empty string), never to Fresher. -/
theorem claim_c5 :
    candLevel 1 = "Fresher" ∧ candLevel 2 = "Intermediate" ∧
    (∀ n : Int, 3 ≤ n → candLevel n = "Experienced") ∧
    (∀ n : Int, n ≤ 0 → candLevel n = "" ∧ candLevel n ≠ "Fresher") ∧
    (∀ rd : ResumeData, rd.no_of_pages = none →
      candLevel (pageCountOf rd) = "" ∧ candLevel (pageCountOf rd) ≠ "Fresher") := by
  have hzero : candLevel 0 = "" := by decide
  refine ⟨by decide, by decide, ?_, ?_, ?_⟩
  · intro n hn
    have h1 : n ≠ 1 := by omega
    have h2 : n ≠ 2 := by omega
    simp [candLevel, h1, h2, hn]
  · intro n hn
    have h1 : n ≠ 1 := by omega
    have h2 : n ≠ 2 := by omega
    have h3 : ¬ (3 ≤ n) := by omega
    constructor
    · simp [candLevel, h1, h2, h3]
    · simp [candLevel, h1, h2, h3]
  · intro rd hrd
    have hp : pageCountOf rd = 0 := by simp [pageCountOf, hrd]
    rw [hp]
    exact ⟨hzero, by rw [hzero]; simp⟩

/-- Witness for C5 at page counts 3, -1 and 0. -/
theorem claim_c5_witness :
    candLevel 3 = "Experienced" ∧ candLevel (-1) = "" ∧ candLevel 0 ≠ "Fresher" :=
  ⟨claim_c5.2.2.1 3 (by decide), (claim_c5.2.2.2.1 (-1) (by decide)).1,
   (claim_c5.2.2.2.1 0 (by decide)).2⟩

/-- C10: section scanning is monotone under text extension: if `T1` occurs as
a substring of `T2` then every section present for `T1` is present for `T2`,
and the resume score of `T1` is at most that of `T2`. -/
theorem claim_c10 (T1 T2 : List Char) (h : Occurs T1 T2) :
    (∀ sk ∈ sections_to_check, sectionPresent T1 sk.2 = true →
      sectionPresent T2 sk.2 = true) ∧
    (scanSections T1).1 ≤ (scanSections T2).1 := by
  have hmono : ∀ kws, sectionPresent T1 kws = true →
      sectionPresent T2 kws = true := by
    intro kws hk
    simp only [sectionPresent, List.any_eq_true] at hk ⊢
    obtain ⟨k, hkm, hko⟩ := hk
    exact ⟨k, hkm,
      (subOccurs_iff k T2).mpr (occurs_trans ((subOccurs_iff k T1).mp hko) h)⟩
  refine ⟨fun sk _ => hmono sk.2, ?_⟩
  simp only [scanSections_eq]
  exact Nat.mul_le_mul (Nat.le_refl 20)
    (List.countP_mono_left (fun sk _ hp => hmono sk.2 hp))

/-- Witness for C10 with "projects" as a substring of "my projects". -/
theorem claim_c10_witness :
    (scanSections "projects".toList).1 ≤ (scanSections "my projects".toList).1 :=
  (claim_c10 "projects".toList "my projects".toList
    ⟨"my ".toList, [], by decide⟩).2

theorem fieldBranch_videos (skills : List String) (cats : Catalogs)
    (js : List Nat) :
    ((fieldBranch skills cats js).2.2.2).resume_videos = cats.resume_videos ∧
    ((fieldBranch skills cats js).2.2.2).interview_videos =
      cats.interview_videos := by
  simp only [fieldBranch]
  split_ifs <;> simp

/-- C9: for every successful evaluation the score breakdown has exactly the
five keys objective, declaration, hobbies, achievements, projects, in that
order, each carrying a boolean. -/
theorem claim_c9 (parse : Except String (Option ResumeData))
    (pdf : Except String (List Char)) (cats : Catalogs) (js : List Nat)
    (ri ii : Nat) (now : String) (r : AnalysisResult) (c2 : Catalogs)
    (h : analyze_resume parse pdf cats js ri ii now = (.success r, c2)) :
    r.score_breakdown.map Prod.fst =
      ["objective", "declaration", "hobbies", "achievements", "projects"] := by
  obtain ⟨rd, text, hp, hq, hr, hc⟩ := analyze_success_inv h
  subst hr
  simp [scanSections_eq, sections_to_check]

/-- Witness for C9 at a concrete successful evaluation. -/
theorem claim_c9_witness :
    wResult.score_breakdown.map Prod.fst =
      ["objective", "declaration", "hobbies", "achievements", "projects"] :=
  claim_c9 (.ok (some wRd)) (.ok []) wCats [] 0 0 "t" _ _ rfl

/-- C7: if the Structured Field Extractor raises, or returns no usable
record, `analyze_resume` returns the corresponding error dictionary
immediately (the parser message embedding the underlying error text, or the
no-data message), and the result does not depend on the Document Text
Extractor's outcome in any way — `pdf_reader` is never consulted. -/
theorem claim_c7 (e : String) (pdf1 pdf2 : Except String (List Char))
    (cats : Catalogs) (js : List Nat) (ri ii : Nat) (now : String) :
    (analyze_resume (.error e) pdf1 cats js ri ii now =
      (.errorDict ("Error parsing resume with pyresparser: " ++ e), cats)) ∧
    (analyze_resume (.ok none) pdf1 cats js ri ii now =
      (.errorDict
        "Could not extract any data from the resume. Is it a valid resume format?",
       cats)) ∧
    (analyze_resume (.error e) pdf1 cats js ri ii now =
      analyze_resume (.error e) pdf2 cats js ri ii now) ∧
    (analyze_resume (.ok none) pdf1 cats js ri ii now =
      analyze_resume (.ok none) pdf2 cats js ri ii now) :=
  ⟨rfl, rfl, rfl, rfl⟩

/-- C8: on every successful evaluation each video recommendation is the
`random.choice` pick from its own pool (absent exactly when that pool is
empty, one pool member otherwise), the two pools are sampled independently,
and the pools themselves are left unmutated in the post-call state. -/
theorem claim_c8 (parse : Except String (Option ResumeData))
    (pdf : Except String (List Char)) (cats : Catalogs) (js : List Nat)
    (ri ii : Nat) (now : String) (r : AnalysisResult) (c2 : Catalogs)
    (h : analyze_resume parse pdf cats js ri ii now = (.success r, c2)) :
    r.resume_video_rec = pickVideo cats.resume_videos ri ∧
    r.interview_video_rec = pickVideo cats.interview_videos ii ∧
    (cats.resume_videos = [] → r.resume_video_rec = none) ∧
    (cats.resume_videos ≠ [] →
      ∃ v, v ∈ cats.resume_videos ∧ r.resume_video_rec = some v) ∧
    (cats.interview_videos = [] → r.interview_video_rec = none) ∧
    (cats.interview_videos ≠ [] →
      ∃ v, v ∈ cats.interview_videos ∧ r.interview_video_rec = some v) ∧
    c2.resume_videos = cats.resume_videos ∧
    c2.interview_videos = cats.interview_videos := by
  obtain ⟨rd, text, hp, hq, hr, hc⟩ := analyze_success_inv h
  subst hr
  subst hc
  refine ⟨by simp, by simp, ?_, ?_, ?_, ?_,
    (fieldBranch_videos _ cats js).1, (fieldBranch_videos _ cats js).2⟩
  · intro hre
    simp [hre, pickVideo_empty]
  · intro hne
    simpa using pickVideo_mem cats.resume_videos ri hne
  · intro hie
    simp [hie, pickVideo_empty]
  · intro hne
    simpa using pickVideo_mem cats.interview_videos ii hne

/-- Witness for C8: with one-entry pools the first pick is returned; with
empty pools the recommendation is absent. -/
theorem claim_c8_witness :
    wResultV.resume_video_rec = pickVideo wCatsV.resume_videos 0 ∧
    wResult.resume_video_rec = none :=
  ⟨(claim_c8 (.ok (some wRd)) (.ok []) wCatsV [] 0 0 "t" _ _ rfl).1,
   (claim_c8 (.ok (some wRd)) (.ok []) wCats [] 0 0 "t" _ _ rfl).2.2.1 rfl⟩

/-- C6: on every successful evaluation, when the predicted field is not
Other the number of recommended courses is `min 5` of the size of that
field's catalog at call time, and when it is Other the list is empty. -/
theorem claim_c6 (parse : Except String (Option ResumeData))
    (pdf : Except String (List Char)) (cats : Catalogs) (js : List Nat)
    (ri ii : Nat) (now : String) (r : AnalysisResult) (c2 : Catalogs)
    (h : analyze_resume parse pdf cats js ri ii now = (.success r, c2)) :
    (r.predicted_field = "Other" → r.recommended_courses = []) ∧
    (r.predicted_field = "Data Science" →
      r.recommended_courses.length = min 5 cats.ds_course.length) ∧
    (r.predicted_field = "Web Development" →
      r.recommended_courses.length = min 5 cats.web_course.length) ∧
    (r.predicted_field = "Android Development" →
      r.recommended_courses.length = min 5 cats.android_course.length) ∧
    (r.predicted_field = "IOS Development" →
      r.recommended_courses.length = min 5 cats.ios_course.length) ∧
    (r.predicted_field = "UI-UX Development" →
      r.recommended_courses.length = min 5 cats.uiux_course.length) := by
  obtain ⟨rd, text, hp, hq, hr, hc⟩ := analyze_success_inv h
  subst hr
  simp only [fieldBranch]
  split_ifs with h1 h2 h3 h4 h5 <;>
    simp [course_recommender_length]

/-- Witness for C6: an Other evaluation yields no courses, and a Data
Science evaluation over a two-entry catalog yields `min 5 2` courses. -/
theorem claim_c6_witness :
    wResult.recommended_courses = [] ∧
    wResultD.recommended_courses.length = min 5 wCatsD.ds_course.length :=
  ⟨(claim_c6 (.ok (some wRd)) (.ok []) wCats [] 0 0 "t" _ _ rfl).1 rfl,
   (claim_c6 (.ok (some wRdP)) (.ok []) wCatsD [] 0 0 "t" _ _ rfl).2.1
     (by decide)⟩

/-- C3 (amended): each call to `course_recommender` returns at most 5
entries, all drawn from the field's catalog, without duplicates whenever the
catalog itself has none; each call preserves the catalog's length and
multiset membership (the post-state is a permutation of the pre-state) —
but, because `random.shuffle` works in place, the stored order may change,
and the permutation invariant persists across any sequence of calls. -/
theorem claim_c3 (cl : List (String × String)) (js : List Nat) :
    ((course_recommender cl js).1).length ≤ 5 ∧
    (∀ e ∈ (course_recommender cl js).1, (e.name, e.link) ∈ cl) ∧
    (cl.Nodup → ((course_recommender cl js).1).Nodup) ∧
    List.Perm ((course_recommender cl js).2) cl ∧
    ((course_recommender cl js).2).length = cl.length ∧
    (∀ x, x ∈ (course_recommender cl js).2 ↔ x ∈ cl) ∧
    (∀ jss : List (List Nat),
      List.Perm (jss.foldl (fun st js2 => (course_recommender st js2).2) cl)
        cl) := by
  have hcalls : ∀ (jss : List (List Nat)) (st : List (String × String)),
      List.Perm (jss.foldl (fun st js2 => (course_recommender st js2).2) st)
        st := by
    intro jss
    induction jss with
    | nil => intro st; simp
    | cons js2 rest ih =>
      intro st
      exact (ih ((course_recommender st js2).2)).trans
        (course_recommender_perm st js2)
  refine ⟨?_, course_recommender_mem cl js, course_recommender_nodup cl js,
    course_recommender_perm cl js, (course_recommender_perm cl js).length_eq,
    fun x => (course_recommender_perm cl js).mem_iff, fun jss => hcalls jss cl⟩
  rw [course_recommender_length]
  exact Nat.min_le_left 5 cl.length

/-- Witness for C3 on a concrete two-entry catalog with one shuffle draw. -/
theorem claim_c3_witness :
    ((course_recommender [("a", "la"), ("b", "lb")] [0]).1).Nodup ∧
    List.Perm ((course_recommender [("a", "la"), ("b", "lb")] [0]).2)
      [("a", "la"), ("b", "lb")] :=
  ⟨(claim_c3 [("a", "la"), ("b", "lb")] [0]).2.2.1 (by decide),
   (claim_c3 [("a", "la"), ("b", "lb")] [0]).2.2.2.1⟩

/-- C3 counterexample: after one `course_recommender` call with shuffle draw
`j = 0`, the two-entry catalog is stored reversed, so the source catalog's
order is NOT unchanged, contradicting the claim as stated. -/
theorem claim_c3_cex :
    (course_recommender [("a", "la"), ("b", "lb")] [0]).2 ≠
      [("a", "la"), ("b", "lb")] ∧
    (course_recommender [("a", "la"), ("b", "lb")] [0]).2 =
      [("b", "lb"), ("a", "la")] := by
  refine ⟨by decide, by decide⟩

/-- C4 (amended): when structured field extraction succeeds but document
text extraction fails, `analyze_resume` does NOT return an error dictionary
carrying the reason: the `pdf_reader` call on line 86 is not guarded, so the
exception escapes `analyze_resume` and the transport layer maps it to the
generic HTTP 500 message, which does not carry the underlying reason. -/
theorem claim_c4 (rd : ResumeData) (e : String) (cats : Catalogs)
    (js : List Nat) (ri ii : Nat) (now : String) :
    (analyze_resume (.ok (some rd)) (.error e) cats js ri ii now).1 =
      .uncaught e ∧
    isErrorDict (analyze_resume (.ok (some rd)) (.error e) cats js ri ii
      now).1 = false ∧
    analyze_route_response
        (analyze_resume (.ok (some rd)) (.error e) cats js ri ii now).1 =
      (.inl "An unexpected server error occurred during analysis.", 500) :=
  ⟨rfl, rfl, rfl⟩

/-- C4 counterexample: a concrete run where parsing succeeds and
`pdf_reader` raises "boom": the outcome is the escaped exception, not an
error dictionary (so no `AnalysisError` with the underlying reason is
returned by the Engine). -/
theorem claim_c4_cex :
    (analyze_resume (.ok (some wRd)) (.error "boom") wCats [] 0 0 "t").1 =
      .uncaught "boom" ∧
    isErrorDict
      (analyze_resume (.ok (some wRd)) (.error "boom") wCats [] 0 0 "t").1 =
      false :=
  ⟨rfl, rfl⟩
